import Mathlib

/-!
Verification of the UploadBot storage core (`src/bot/storage.py`,
`src/bot/compression.py`, `src/bot/utils.py`) against its specification.

The Python code is shallowly embedded: the local filesystem and the
metadata index are association lists, external collaborators (the
Telegram channel client, the codec library, the OS calls that can fail)
are provided through an explicit environment record, and every fallible
operation returns `Except`/`Option` values mirroring raised exceptions.
-/

namespace UploadBot

/-- File contents are modelled as sequences of bytes (numbers). -/
abbrev ByteSeq := List Nat

/-- The local filesystem: a mapping from path to file contents,
written as an association list where the head entry shadows later ones. -/
abbrev FS := List (String × ByteSeq)

/-- Read a file: the first entry for the path, `none` if absent. -/
def FS.read : FS → String → Option ByteSeq
  | [], _ => none
  | (p, d) :: rest, q => if p = q then some d else FS.read rest q

/-- Write (create or overwrite) a file. -/
def FS.write (fs : FS) (p : String) (d : ByteSeq) : FS := (p, d) :: fs

/-- Remove a file (all entries for the path). -/
def FS.erase : FS → String → FS
  | [], _ => []
  | (p, d) :: rest, q => if p = q then FS.erase rest q else (p, d) :: FS.erase rest q

/-- `os.path.basename`: the part after the last slash. -/
def basename (s : String) : String :=
  String.mk ((s.toList.reverse.takeWhile (fun c => c ≠ '/')).reverse)

/-- `os.path.dirname`: the part before the last slash (empty if none). -/
def dirname (s : String) : String :=
  match s.toList.reverse.dropWhile (fun c => c ≠ '/') with
  | [] => ""
  | _ :: rest => String.mk rest.reverse

/-- `os.path.join` for the shapes used in this code base. -/
def joinPath (d f : String) : String := if d = "" then f else d ++ "/" ++ f

/-- Python's `s.rsplit('.', 1)[0]`: drop the last dot and what follows it
(the whole string when there is no dot). -/
def dropLastExt (s : String) : String :=
  match s.toList.reverse.dropWhile (fun c => c ≠ '.') with
  | [] => s
  | _ :: rest => String.mk rest.reverse

/-- Python's `str.endswith`, computed on character lists. -/
def strEndsWith (s suffix : String) : Bool :=
  List.isPrefixOf suffix.toList.reverse s.toList.reverse

/-- `utils.calculate_compression_ratio`: percentage reduction, `0.0` for an
empty original, clamped from below by `max(0.0, ...)`.  Python floats are
modelled as rationals; the clamping and zero cases are exact in both. -/
def calculate_compression_ratio (original_size compressed_size : Int) : Rat :=
  if original_size = 0 then 0
  else max 0 (((original_size : Rat) - (compressed_size : Rat)) / (original_size : Rat) * 100)

/-- Exceptions raised by the embedded code. -/
inductive Err
  | valueError (msg : String)
  | fileNotFound (path : String)
  | copyFailed
  | genericError (msg : String)
  | callbackError
deriving DecidableEq, Repr

/-- The codec library behind `CompressionManager` (zipfile / gzip / lzma).
`encode` receives the algorithm, the archive member name (used by the zip
container, ignored by the stream codecs), the level and the payload;
`decode` recovers the member name and the payload, `none` on a corrupt or
empty container. -/
structure Codec where
  encode : String → String → Nat → ByteSeq → ByteSeq
  decode : String → ByteSeq → Option (String × ByteSeq)

/-- The configuration fields the storage manager reads. -/
structure Config where
  STORAGE_CHANNEL_ID : Option Int
  TEMP_DIR : String
deriving DecidableEq, Repr

/-- Outcome of one run of `_save_metadata`'s `open(metadata_file, 'w')` +
`json.dump` pair: the whole flush completes; or the dump raises after the
truncating open has already destroyed the old contents (e.g. disk full
mid-write), leaving a torn file; or the open itself raises, leaving the
previous durable contents untouched. -/
inductive FlushOutcome
  | ok
  | dumpFail
  | openFail
deriving DecidableEq, Repr

/-- Outcomes of the external collaborators and fallible OS calls during one
request: the channel upload result, the (spec-only) cloud upload result, the
channel fetch result (bytes landing at the requested destination path, `none`
when the fetch fails or the client saves elsewhere), whether `shutil.copy2`
and `os.remove` succeed, and how the metadata flush fares. -/
structure Env where
  channelReady : Bool
  channelUpload : Option (Nat × String)
  cloudUpload : Option String
  telethonSet : Bool
  channelFetch : Option ByteSeq
  channelDeleteOk : Bool
  copyOk : Bool
  saveOutcome : FlushOutcome
  removeOk : Bool
  nowIso : String
  now : Nat
deriving DecidableEq, Repr

/-- Replace only the cloud-upload outcome of an environment. -/
def Env.setCloudUpload (e : Env) (v : Option String) : Env :=
  ⟨e.channelReady, e.channelUpload, v, e.telethonSet, e.channelFetch,
   e.channelDeleteOk, e.copyOk, e.saveOutcome, e.removeOk, e.nowIso, e.now⟩

/-- Replace only the channel-fetch outcome of an environment. -/
def Env.setChannelFetch (e : Env) (v : Option ByteSeq) : Env :=
  ⟨e.channelReady, e.channelUpload, e.cloudUpload, e.telethonSet, v,
   e.channelDeleteOk, e.copyOk, e.saveOutcome, e.removeOk, e.nowIso, e.now⟩

/-- Replace only the channel-delete outcome of an environment. -/
def Env.setChannelDeleteOk (e : Env) (v : Bool) : Env :=
  ⟨e.channelReady, e.channelUpload, e.cloudUpload, e.telethonSet, e.channelFetch,
   v, e.copyOk, e.saveOutcome, e.removeOk, e.nowIso, e.now⟩

/-- One value of the `file_metadata` dictionary built in
`TelegramStorageManager.upload_file` (storage.py lines 157-167), with the
descriptor keys the handler layer merges in. -/
structure FileMeta where
  file_id : String
  user_id : Int
  stored_file_path : String
  telegram_message_id : Option Nat
  channel_link : Option String
  public_link : String
  storage_type : String
  upload_date : String
  original_name : String
  original_size : Nat
  compressed_size : Nat
  compression_algo : String
  compression_ratio : Rat
  file_type : String
deriving DecidableEq, Repr

/-- The caller-supplied descriptor bag (`metadata` argument of `upload_file`). -/
structure Descriptor where
  original_name : String
  original_size : Nat
  compressed_size : Nat
  compression_algo : String
  compression_ratio : Rat
  file_type : String
deriving DecidableEq, Repr

/-- The in-memory index `self.metadata`: a dictionary from file id to record. -/
abbrev MetaMap := List (String × FileMeta)

/-- Dictionary read: `self.metadata.get(file_id)`. -/
def MetaMap.find : MetaMap → String → Option FileMeta
  | [], _ => none
  | (k, v) :: rest, fid => if k = fid then some v else MetaMap.find rest fid

/-- Dictionary delete: `del self.metadata[file_id]`. -/
def MetaMap.eraseKey : MetaMap → String → MetaMap
  | [], _ => []
  | (k, v) :: rest, fid =>
    if k = fid then MetaMap.eraseKey rest fid else (k, v) :: MetaMap.eraseKey rest fid

/-- Dictionary write: `self.metadata[file_id] = metadata`. -/
def MetaMap.insert (m : MetaMap) (fid : String) (r : FileMeta) : MetaMap :=
  (fid, r) :: MetaMap.eraseKey m fid

/-- Contents of the durable metadata file `file_metadata.json`. -/
inductive DurableFile
  | absent
  | torn
  | full (m : MetaMap)
deriving DecidableEq, Repr

/-- The storage manager's state: the local filesystem, the in-memory index,
and the durable index file. -/
structure MgrState where
  fs : FS
  metadata : MetaMap
  durable : DurableFile
deriving DecidableEq, Repr

/-- `CompressionManager.compress_file`: checks the algorithm against the
supported list, requires the input to exist, writes
`dirname(input)/basename(input).algorithm`, and returns that path. -/
def compress_file (c : Codec) (fs : FS) (input_path algorithm : String) (level : Nat) :
    Except Err (FS × String) :=
  if ¬(algorithm = "zip" ∨ algorithm = "gzip" ∨ algorithm = "lzma") then
    Except.error (Err.valueError "Unsupported compression algorithm")
  else
    match FS.read fs input_path with
    | none => Except.error (Err.fileNotFound input_path)
    | some data =>
      let output_path := joinPath (dirname input_path) (basename input_path ++ "." ++ algorithm)
      Except.ok (FS.write fs output_path (c.encode algorithm (basename input_path) level data),
                 output_path)

/-- `CompressionManager.decompress_file`: detects the algorithm from the file
name suffix (`.zip`; `.gz`/`.gzip`; `.xz`/`.lzma`; anything else raises
`ValueError`), derives the output path when none is given (for zip an
`_extracted` directory whose first member is returned), decodes, and returns
the decompressed path. -/
def decompress_file (c : Codec) (fs : FS) (input_path : String) (output_arg : Option String) :
    Except Err (FS × String) :=
  match FS.read fs input_path with
  | none => Except.error (Err.fileNotFound input_path)
  | some data =>
    if strEndsWith input_path ".zip" then
      let output_dir := match output_arg with
        | some p => p
        | none => dropLastExt input_path ++ "_extracted"
      match c.decode "zip" data with
      | none => Except.error (Err.valueError "ZIP file is empty")
      | some (name, d) =>
        Except.ok (FS.write fs (output_dir ++ "/" ++ name) d, output_dir ++ "/" ++ name)
    else if strEndsWith input_path ".gz" ∨ strEndsWith input_path ".gzip" then
      let output_path := match output_arg with
        | some p => p
        | none => dropLastExt input_path
      match c.decode "gzip" data with
      | none => Except.error (Err.valueError "bad stream")
      | some (_, d) => Except.ok (FS.write fs output_path d, output_path)
    else if strEndsWith input_path ".xz" ∨ strEndsWith input_path ".lzma" then
      let output_path := match output_arg with
        | some p => p
        | none => dropLastExt input_path
      match c.decode "lzma" data with
      | none => Except.error (Err.valueError "bad stream")
      | some (_, d) => Except.ok (FS.write fs output_path d, output_path)
    else
      Except.error (Err.valueError "Unable to determine compression type")

/-- `self.storage_dir = os.path.join(config.TEMP_DIR, 'file_storage')`. -/
def storage_dir (cfg : Config) : String := joinPath cfg.TEMP_DIR "file_storage"

/-- The local backup path computed in `upload_file` (storage.py lines 141-144):
`storage_dir/user_{user_id}/{file_id}_{basename(file_path)}`. -/
def stored_path (cfg : Config) (user_id : Int) (file_id file_path : String) : String :=
  joinPath (joinPath (storage_dir cfg) ("user_" ++ toString user_id))
    (file_id ++ "_" ++ basename file_path)

/-- `_save_metadata` (storage.py lines 417-423): `open(self.metadata_file, 'w')`
truncates the durable file in place, then `json.dump` streams the whole index
into it; any exception is caught and logged.  A completed run leaves the new
contents; a dump that raises after the truncating open leaves a torn file; an
open that raises leaves the previous contents. -/
def save_metadata (env : Env) (m : MetaMap) (prev : DurableFile) : DurableFile :=
  match env.saveOutcome with
  | FlushOutcome.ok => DurableFile.full m
  | FlushOutcome.dumpFail => DurableFile.torn
  | FlushOutcome.openFail => prev

/-- `_store_file_metadata` (storage.py lines 394-397): insert the record into
the in-memory index, then immediately flush. -/
def store_file_metadata (env : Env) (st : MgrState) (fid : String) (r : FileMeta) : MgrState :=
  let m1 := MetaMap.insert st.metadata fid r
  ⟨st.fs, m1, save_metadata env m1 st.durable⟩

/-- The index mutation at the end of `delete_file` (storage.py lines 329-331):
remove the key if present, then immediately flush. -/
def index_delete_and_flush (env : Env) (st : MgrState) (fid : String) : MgrState :=
  if (MetaMap.find st.metadata fid).isSome then
    let m1 := MetaMap.eraseKey st.metadata fid
    ⟨st.fs, m1, save_metadata env m1 st.durable⟩
  else st

/-- `_get_file_metadata` (storage.py lines 399-404): the record only when both
the file id and the user id match. -/
def get_file_metadata (st : MgrState) (fid : String) (uid : Int) : Option FileMeta :=
  match MetaMap.find st.metadata fid with
  | some m => if m.user_id = uid then some m else none
  | none => none

/-- The best-effort channel attempt at the top of `upload_file` (storage.py
lines 127-138): attempted only when the channel manager is set and
initialized; `none` is any failure, an exception included. -/
def chanResult (env : Env) : Option (Nat × String) :=
  if env.channelReady then env.channelUpload else none

/-- The `(public_link, storage_type)` pair selected in `upload_file`
(storage.py lines 148-154): the channel link when the channel attempt
succeeded, else the local backup path. -/
def uploadLinks (env : Env) (cfg : Config) (file_path file_id : String) (user_id : Int) :
    String × String :=
  match chanResult env with
  | some (_, l) => (l, "telegram_channel")
  | none => (stored_path cfg user_id file_id file_path, "local")

/-- The `file_metadata` record built in `upload_file` (storage.py lines
156-167). -/
def uploadRecord (env : Env) (cfg : Config) (file_path file_id : String) (user_id : Int)
    (d : Descriptor) : FileMeta :=
  ⟨file_id, user_id, stored_path cfg user_id file_id file_path,
   (chanResult env).map Prod.fst, (chanResult env).map Prod.snd,
   (uploadLinks env cfg file_path file_id user_id).1,
   (uploadLinks env cfg file_path file_id user_id).2, env.nowIso,
   d.original_name, d.original_size, d.compressed_size, d.compression_algo,
   d.compression_ratio, d.file_type⟩

/-- `TelegramStorageManager.upload_file` (storage.py lines 109-176): best-effort
channel upload, then the unconditional local backup copy (fatal on failure:
the exception propagates and no record is stored), then the record built with
the primary link (channel preferred, else local), stored and flushed.  There
is no cloud-client step in this function. -/
def upload_file (env : Env) (cfg : Config) (st : MgrState) (file_path file_id : String)
    (user_id : Int) (d : Descriptor) : Except Err (MgrState × String) :=
  match FS.read st.fs file_path, env.copyOk with
  | some data, true =>
    Except.ok (store_file_metadata env
      ⟨FS.write st.fs (stored_path cfg user_id file_id file_path) data, st.metadata,
       st.durable⟩ file_id (uploadRecord env cfg file_path file_id user_id d),
      (uploadLinks env cfg file_path file_id user_id).1)
  | _, _ => Except.error Err.copyFailed

/-- A progress callback invocation: `true` means the awaited call returned,
`false` that it raised. -/
def callCb (cb : Option (Nat → Bool)) (n : Nat) : Bool :=
  match cb with
  | none => true
  | some f => f n

/-- Result of `download_and_decompress`: `notFound` is the `None` return for a
missing or other-owner record, `ok` carries the filesystem after the run, the
decompressed path, the original name and the original size, and `err` is a
raised exception. -/
inductive DlResult
  | notFound
  | ok (fs : FS) (path : String) (name : String) (size : Nat)
  | err (e : Err)
deriving DecidableEq, Repr

/-- The tail of `download_and_decompress` after a compressed file has been
located (storage.py lines 254-274): the 80% callback, decompression, removal
of the staging file when it is not the persistent local backup, the 100%
callback, and the returned triple. -/
def finish_download (c : Codec) (cb : Option (Nat → Bool)) (md : FileMeta) (fs : FS)
    (comp : String) : DlResult :=
  if callCb cb 80 then
    match decompress_file c fs comp none with
    | Except.error e => DlResult.err e
    | Except.ok (fs2, dpath) =>
      let fs3 := if comp = md.stored_file_path then fs2 else FS.erase fs2 comp
      if callCb cb 100 then DlResult.ok fs3 dpath md.original_name md.original_size
      else DlResult.err Err.callbackError
  else DlResult.err Err.callbackError

/-- `TelegramStorageManager.download_and_decompress` (storage.py lines
178-278): owner-scoped lookup (`None` when absent), the 10% callback, the
best-effort channel fetch into
`TEMP_DIR/channel_download_{file_id}_{int(time.time())}` (any failure inside
that attempt, including a failing 60% callback, is absorbed), the local-backup
fallback (fatal when the backup is missing), then decompression. -/
def download_and_decompress (c : Codec) (env : Env) (cfg : Config) (st : MgrState)
    (file_id : String) (user_id : Int) (cb : Option (Nat → Bool)) : DlResult :=
  match get_file_metadata st file_id user_id with
  | none => DlResult.notFound
  | some md =>
    if callCb cb 10 then
      let temp_path := joinPath cfg.TEMP_DIR ("channel_download_" ++ file_id ++ "_" ++ toString env.now)
      let fetched : Option ByteSeq :=
        match md.telegram_message_id with
        | some _ => if cfg.STORAGE_CHANNEL_ID.isSome ∧ env.telethonSet then env.channelFetch else none
        | none => none
      match fetched with
      | some bytes => finish_download c cb md (FS.write st.fs temp_path bytes) temp_path
      | none =>
        match FS.read st.fs md.stored_file_path with
        | none => DlResult.err (Err.genericError "File not found in any storage location")
        | some _ =>
          if callCb cb 60 then finish_download c cb md st.fs md.stored_file_path
          else DlResult.err Err.callbackError
    else DlResult.err Err.callbackError

/-- `TelegramStorageManager.delete_file` (storage.py lines 301-338):
owner-scoped lookup (`False` when absent), `os.remove` of the local backup when
it exists (an exception here reaches the outer handler, which returns `False`
with nothing removed), the absorbed best-effort channel delete, then the index
removal and flush, returning `True`. -/
def delete_file (env : Env) (cfg : Config) (st : MgrState) (fid : String) (uid : Int) :
    Bool × MgrState :=
  match get_file_metadata st fid uid with
  | none => (false, st)
  | some md =>
    match FS.read st.fs md.stored_file_path with
    | some _ =>
      if env.removeOk then
        (true, index_delete_and_flush env ⟨FS.erase st.fs md.stored_file_path, st.metadata, st.durable⟩ fid)
      else (false, st)
    | none => (true, index_delete_and_flush env st fid)

/-- One element of the `list_user_files` result (storage.py lines 286-295). -/
structure FileSummary where
  file_id : String
  original_name : String
  original_size : Nat
  compressed_size : Nat
  compression_ratio : Rat
  upload_date : String
  public_link : String
  storage_type : String
deriving DecidableEq, Repr

/-- Stable insertion of a summary into a list sorted by upload date
descending, as Python's stable `sort(key=..., reverse=True)` orders it. -/
def insertByDateDesc (x : FileSummary) : List FileSummary → List FileSummary
  | [] => [x]
  | y :: ys =>
    if y.upload_date < x.upload_date then x :: y :: ys else y :: insertByDateDesc x ys

/-- Sort summaries by upload date, newest first. -/
def sortByDateDesc : List FileSummary → List FileSummary
  | [] => []
  | x :: xs => insertByDateDesc x (sortByDateDesc xs)

/-- `list_user_files` (storage.py lines 280-299): the index entries whose
`user_id` matches, summarised and sorted by upload date descending. -/
def list_user_files (st : MgrState) (uid : Int) : List FileSummary :=
  sortByDateDesc ((st.metadata.filter (fun p => p.2.user_id = uid)).map
    (fun p => ⟨p.1, p.2.original_name, p.2.original_size, p.2.compressed_size,
               p.2.compression_ratio, p.2.upload_date, p.2.public_link, p.2.storage_type⟩))

/-- A crash point inside one run of `_save_metadata`. -/
inductive FlushCrash
  | before
  | mid
  | done
deriving DecidableEq, Repr

/-- `_save_metadata` at filesystem granularity (storage.py lines 417-423):
`open(self.metadata_file, 'w')` truncates the durable file in place and
`json.dump` then streams into it, so a crash after the open but before the
dump completes leaves a torn file at the visible path; there is no fresh
temporary file and no rename step in the source. -/
def save_metadata_crash : FlushCrash → DurableFile → MetaMap → DurableFile
  | FlushCrash.before, prev, _ => prev
  | FlushCrash.mid, _, _ => DurableFile.torn
  | FlushCrash.done, _, m => DurableFile.full m

/-- The upload sequence as the specification words it (spec §4.1 steps 1-6),
used as the comparison point for the cloud-upload claim: attempt the channel,
then independently attempt the cloud client, copy locally (fatal on failure),
and select the primary storage kind by the priority channel, then cloud, then
local among the attempts that succeeded.  Returns the primary kind and its
reference. -/
def upload_spec_primary (env : Env) (cfg : Config) (st : MgrState)
    (file_path file_id : String) (user_id : Int) : Except Err (String × String) :=
  let chan : Option (Nat × String) := if env.channelReady then env.channelUpload else none
  let stored := stored_path cfg user_id file_id file_path
  match FS.read st.fs file_path, env.copyOk with
  | some _, true =>
    match chan, env.cloudUpload with
    | some (_, l), _ => Except.ok ("channel", l)
    | none, some cl => Except.ok ("cloud", cl)
    | none, none => Except.ok ("local", stored)
  | _, _ => Except.error Err.copyFailed

/-- Turn an `Except` result into an `Option`, for stating concrete facts. -/
def exceptToOption : Except Err (MgrState × String) → Option (MgrState × String)
  | Except.ok r => some r
  | Except.error _ => none

/-- The same, for the spec-described upload outcome. -/
def specToOption : Except Err (String × String) → Option (String × String)
  | Except.ok r => some r
  | Except.error _ => none

/-! Concrete fixtures used by counterexamples and witnesses. -/

/-- An executable lossless codec for concrete runs: the member name's
character codes, a separator, then the payload. -/
def toyCodec : Codec :=
  ⟨fun _ n _ d => (n.toList.map Char.toNat) ++ (1000 :: d),
   fun _ b =>
     match b.dropWhile (fun x => x ≠ 1000) with
     | [] => none
     | _ :: d => some (String.mk ((b.takeWhile (fun x => x ≠ 1000)).map Char.ofNat), d)⟩

/-- A configuration with a storage channel configured. -/
def cfg0 : Config := ⟨some 5, "tmp"⟩

/-- The descriptor bag used in concrete runs. -/
def d0 : Descriptor := ⟨"orig.txt", 10, 5, "gzip", 50, "document"⟩

/-- Environment: no channel, every durable step succeeds. -/
def envL : Env :=
  ⟨false, none, none, false, none, true, true, FlushOutcome.ok, true, "2024-01-01", 111⟩

/-- Environment: channel upload and channel fetch both succeed. -/
def envCh : Env :=
  ⟨true, some (9, "t.me/c/5/9"), none, true, some ([102, 1000, 1, 2, 3]), true, true,
   FlushOutcome.ok, true, "2024-01-01", 111⟩

/-- Environment: the local copy (`shutil.copy2`) fails. -/
def envCF : Env :=
  ⟨false, none, none, false, none, true, false, FlushOutcome.ok, true, "2024-01-01", 111⟩

/-- Environment: the metadata dump fails after the truncating open. -/
def envSF : Env :=
  ⟨false, none, none, false, none, true, true, FlushOutcome.dumpFail, true, "2024-01-01", 111⟩

/-- Environment: the open of the metadata file itself fails. -/
def envSFo : Env :=
  ⟨false, none, none, false, none, true, true, FlushOutcome.openFail, true, "2024-01-01", 111⟩

/-- Environment: `os.remove` of the local backup fails. -/
def envRF : Env :=
  ⟨false, none, none, false, none, true, true, FlushOutcome.ok, false, "2024-01-01", 111⟩

/-- Environment: channel upload fails, cloud upload would succeed. -/
def envC4 : Env :=
  ⟨true, none, some "mega.nz/x", false, none, true, true, FlushOutcome.ok, true,
   "2024-01-01", 111⟩

/-- A state holding one raw source file at `tmp/f`. -/
def stRaw : MgrState := ⟨[("tmp/f", [1, 2, 3])], [], DurableFile.absent⟩

/-- A state holding one compressed source file at `tmp/f.gzip`. -/
def st0 : MgrState := ⟨[("tmp/f.gzip", [102, 1000, 1, 2, 3])], [], DurableFile.absent⟩

/-- A stored record owned by user 7 with a local backup only. -/
def recR : FileMeta :=
  ⟨"fid", 7, "tmp/file_storage/user_7/fid_f.gzip", none, none,
   "tmp/file_storage/user_7/fid_f.gzip", "local", "2024-01-01", "orig.txt", 10, 5, "gzip",
   50, "document"⟩

/-- A state holding the record `recR` and its local backup. -/
def stR : MgrState :=
  ⟨[("tmp/file_storage/user_7/fid_f.gzip", [102, 1000, 1, 2, 3])], [("fid", recR)],
   DurableFile.full [("fid", recR)]⟩

/-! Small dictionary and filesystem lemmas. -/

theorem MetaMap.find_insert_self (m : MetaMap) (fid : String) (r : FileMeta) :
    MetaMap.find (MetaMap.insert m fid r) fid = some r := by
  simp [MetaMap.insert, MetaMap.find]

theorem MetaMap.find_eraseKey_self (m : MetaMap) (fid : String) :
    MetaMap.find (MetaMap.eraseKey m fid) fid = none := by
  induction m with
  | nil => simp [MetaMap.eraseKey, MetaMap.find]
  | cons p rest ih =>
    obtain ⟨k, v⟩ := p
    by_cases h : k = fid <;> simp [MetaMap.eraseKey, MetaMap.find, h, ih]

theorem MetaMap.find_none_keys {m : MetaMap} {fid : String}
    (h : MetaMap.find m fid = none) : ∀ p ∈ m, p.1 ≠ fid := by
  induction m with
  | nil => intro p hp; cases hp
  | cons q rest ih =>
    obtain ⟨k, v⟩ := q
    by_cases hk : k = fid
    · simp [MetaMap.find, hk] at h
    · intro p hp
      rcases List.mem_cons.mp hp with rfl | hmem
      · exact hk
      · exact ih (by simpa [MetaMap.find, hk] using h) p hmem

theorem FS.read_write_self (fs : FS) (p : String) (d : ByteSeq) :
    FS.read (FS.write fs p d) p = some d := by
  simp [FS.read, FS.write]

theorem mem_insertByDateDesc {a x : FileSummary} {l : List FileSummary} :
    a ∈ insertByDateDesc x l ↔ a = x ∨ a ∈ l := by
  induction l with
  | nil => simp [insertByDateDesc]
  | cons y ys ih =>
    by_cases h : y.upload_date < x.upload_date
    · simp [insertByDateDesc, h]
    · simp [insertByDateDesc, h, ih]
      tauto

theorem mem_sortByDateDesc {a : FileSummary} {l : List FileSummary} :
    a ∈ sortByDateDesc l ↔ a ∈ l := by
  induction l with
  | nil => simp [sortByDateDesc]
  | cons x xs ih => simp [sortByDateDesc, mem_insertByDateDesc, ih]

/-! Claim C10. -/

/-- Claim C10 (counterexample): the claim quantifies over all integer sizes
and asserts that the reported ratio is `0.0` whenever the compressed size
exceeds the original; at `original_size = -10`, `compressed_size = 5` the
compressed size exceeds the original yet the code reports `150`. -/
theorem C10_negative_original_cex :
    calculate_compression_ratio (-10) 5 = 150 ∧ (-10 : Int) < 5 ∧ (150 : Rat) ≠ 0 := by
  refine ⟨?_, by decide, by norm_num⟩
  norm_num [calculate_compression_ratio]

/-- Claim C10 (amended): `calculate_compression_ratio` returns `0.0` when the
original size is `0`, is clamped to be non-negative for all integer sizes,
and reports `0.0` whenever a positive original is no larger than the
compressed size (compression expanded the file). -/
theorem C10_ratio_clamped (o c : Int) :
    calculate_compression_ratio 0 c = 0
    ∧ 0 ≤ calculate_compression_ratio o c
    ∧ (0 < o → o ≤ c → calculate_compression_ratio o c = 0) := by
  refine ⟨by simp [calculate_compression_ratio], ?_, ?_⟩
  · unfold calculate_compression_ratio
    split
    · exact le_refl 0
    · exact le_max_left 0 _
  · intro ho hc
    unfold calculate_compression_ratio
    rw [if_neg (by omega)]
    have h2 : (0 : Rat) < (o : Rat) := by exact_mod_cast ho
    have h1 : ((o : Rat) - (c : Rat)) ≤ 0 := by
      have : (o : Rat) ≤ (c : Rat) := by exact_mod_cast hc
      linarith
    have h3 : ((o : Rat) - (c : Rat)) / (o : Rat) ≤ 0 :=
      div_nonpos_iff.mpr (Or.inr ⟨h1, h2.le⟩)
    have h4 : ((o : Rat) - (c : Rat)) / (o : Rat) * 100 ≤ 0 := by linarith
    exact max_eq_left h4

/-- Claim C10 (witness): the amended statement at `original_size = 4`,
`compressed_size = 7`. -/
theorem C10_ratio_clamped_witness :
    calculate_compression_ratio 0 7 = 0 ∧ 0 ≤ calculate_compression_ratio 4 7
    ∧ calculate_compression_ratio 4 7 = 0 :=
  ⟨(C10_ratio_clamped 4 7).1, (C10_ratio_clamped 4 7).2.1,
   (C10_ratio_clamped 4 7).2.2 (by norm_num) (by norm_num)⟩

/-! Claim C1. -/

/-- Claim C1 (failing run): a compress → upload → download round trip in which
the channel upload succeeds and the channel fetch lands at the requested
destination.  The staging path `TEMP_DIR/channel_download_{file_id}_{time}`
carries no compression extension, so `decompress_file` raises `ValueError`
instead of returning the original bytes: the round trip is not lossless on
the channel path. -/
theorem C1_channel_roundtrip_valueerror :
    (match compress_file toyCodec stRaw.fs "tmp/f" "gzip" 6 with
     | Except.ok (fs1, cpath) =>
       match upload_file envCh cfg0 ⟨fs1, [], DurableFile.absent⟩ cpath "fid" 7 d0 with
       | Except.ok (st1, _) =>
         download_and_decompress toyCodec envCh cfg0 st1 "fid" 7 none
       | Except.error e => DlResult.err e
     | Except.error e => DlResult.err e)
    = DlResult.err (Err.valueError "Unable to determine compression type") := by decide

/-- Shape of a successful upload: when the source is readable and the local
copy succeeds, `upload_file` returns the updated state and the primary link. -/
theorem upload_file_ok (env : Env) (cfg : Config) (st : MgrState) (p fid : String)
    (uid : Int) (d : Descriptor) (data : ByteSeq)
    (hc : env.copyOk = true) (hsrc : FS.read st.fs p = some data) :
    upload_file env cfg st p fid uid d =
      Except.ok (store_file_metadata env
        ⟨FS.write st.fs (stored_path cfg uid fid p) data, st.metadata, st.durable⟩ fid
        (uploadRecord env cfg p fid uid d),
        (uploadLinks env cfg p fid uid).1) := by
  simp [upload_file, hsrc, hc]

/-! Claim C2. -/

/-- Claim C2: a lookup succeeds only when both `file_id` and `owner_id` match:
for a stored record whose owner differs from the caller, `_get_file_metadata`
returns `None`, `download_and_decompress` returns the same not-found result as
it does once the record is erased (an absent `file_id`), and `delete_file`
returns `False` leaving the state untouched. -/
theorem C2_owner_scoped_lookup (c : Codec) (env : Env) (cfg : Config) (st : MgrState)
    (fid : String) (uid2 : Int) (cb : Option (Nat → Bool)) (m : FileMeta)
    (hm : MetaMap.find st.metadata fid = some m) (hne : m.user_id ≠ uid2) :
    get_file_metadata st fid uid2 = none
    ∧ download_and_decompress c env cfg st fid uid2 cb = DlResult.notFound
    ∧ download_and_decompress c env cfg ⟨st.fs, MetaMap.eraseKey st.metadata fid, st.durable⟩
        fid uid2 cb = DlResult.notFound
    ∧ delete_file env cfg st fid uid2 = (false, st) := by
  have hg : get_file_metadata st fid uid2 = none := by
    simp [get_file_metadata, hm, hne]
  have hg2 : get_file_metadata ⟨st.fs, MetaMap.eraseKey st.metadata fid, st.durable⟩ fid uid2
      = none := by
    simp [get_file_metadata, MetaMap.find_eraseKey_self]
  refine ⟨hg, ?_, ?_, ?_⟩
  · simp [download_and_decompress, hg]
  · simp [download_and_decompress, hg2]
  · simp [delete_file, hg]

/-- Claim C2 (witness): the record of `stR` is owned by user 7; user 8's
download and delete see it as absent. -/
theorem C2_owner_scoped_lookup_witness :
    get_file_metadata stR "fid" 8 = none
    ∧ download_and_decompress toyCodec envL cfg0 stR "fid" 8 none = DlResult.notFound
    ∧ download_and_decompress toyCodec envL cfg0
        ⟨stR.fs, MetaMap.eraseKey stR.metadata "fid", stR.durable⟩ "fid" 8 none
        = DlResult.notFound
    ∧ delete_file envL cfg0 stR "fid" 8 = (false, stR) :=
  C2_owner_scoped_lookup toyCodec envL cfg0 stR "fid" 8 none recR (by decide) (by decide)

/-! Claim C3. -/

/-- Claim C3: when the local-copy step fails, `upload_file` raises to the
caller and no record is created; the index is untouched (the state is not
even returned), so a listing for the owner still has no entry with that
`file_id`. -/
theorem C3_local_copy_failure (env : Env) (cfg : Config) (st : MgrState)
    (p fid : String) (uid : Int) (d : Descriptor)
    (hc : env.copyOk = false) (habs : MetaMap.find st.metadata fid = none) :
    upload_file env cfg st p fid uid d = Except.error Err.copyFailed
    ∧ ∀ e ∈ list_user_files st uid, e.file_id ≠ fid := by
  constructor
  · rcases h : FS.read st.fs p with _ | data <;> simp [upload_file, h, hc]
  · intro e he
    rw [list_user_files, mem_sortByDateDesc] at he
    rcases List.mem_map.mp he with ⟨q, hq, rfl⟩
    exact MetaMap.find_none_keys habs q (List.mem_filter.mp hq).1

/-- Claim C3 (witness): with a failing copy step, uploading `other` over the
state `stR` errors and user 7's listing has no entry `other`. -/
theorem C3_local_copy_failure_witness :
    upload_file envCF cfg0 stR "tmp/f.gzip" "other" 7 d0 = Except.error Err.copyFailed
    ∧ ∀ e ∈ list_user_files stR 7, e.file_id ≠ "other" :=
  C3_local_copy_failure envCF cfg0 stR "tmp/f.gzip" "other" 7 d0 (by decide) (by decide)

/-! Claim C8. -/

/-- Claim C8 (counterexample): with a failing metadata flush, `upload_file`
still returns success and the record is committed to the in-memory index — the
failure is absorbed, not propagated, and a partial (memory-only) record is
committed.  When the dump raises after the truncating open, the durable file
is moreover left torn; when the open itself raises, it keeps its previous
contents (`absent` here). -/
theorem C8_flush_failure_absorbed_cex :
    (exceptToOption (upload_file envSF cfg0 st0 "tmp/f.gzip" "fid" 7 d0)).map
      (fun r => ((MetaMap.find r.1.metadata "fid").isSome, r.1.durable))
      = some (true, DurableFile.torn)
    ∧ (exceptToOption (upload_file envSFo cfg0 st0 "tmp/f.gzip" "fid" 7 d0)).map
        (fun r => ((MetaMap.find r.1.metadata "fid").isSome, r.1.durable))
        = some (true, DurableFile.absent) := by
  refine ⟨by decide, by decide⟩

/-- Claim C8 (amended): `_save_metadata` catches and logs its own failure, so
a failed index flush during upload is absorbed: the upload succeeds and the
in-memory index holds the new record.  The durable copy never holds the new
index: a dump that raises after the truncating open leaves it torn, and an
open that raises leaves the previous contents.  Only the local-copy failure
propagates. -/
theorem C8_flush_failure_absorbed (env : Env) (cfg : Config) (st : MgrState)
    (p fid : String) (uid : Int) (d : Descriptor) (data : ByteSeq)
    (hs : env.saveOutcome ≠ FlushOutcome.ok) (hc : env.copyOk = true)
    (hsrc : FS.read st.fs p = some data) :
    ∃ st' l, upload_file env cfg st p fid uid d = Except.ok (st', l)
      ∧ (MetaMap.find st'.metadata fid).isSome = true
      ∧ (env.saveOutcome = FlushOutcome.dumpFail → st'.durable = DurableFile.torn)
      ∧ (env.saveOutcome = FlushOutcome.openFail → st'.durable = st.durable) := by
  refine ⟨_, _, upload_file_ok env cfg st p fid uid d data hc hsrc, ?_, ?_, ?_⟩
  · simp [store_file_metadata, MetaMap.find_insert_self]
  · intro h; simp [store_file_metadata, save_metadata, h]
  · intro h; simp [store_file_metadata, save_metadata, h]

/-- Claim C8 (witness): the amended statement on the concrete
dump-fails-after-open environment. -/
theorem C8_flush_failure_absorbed_witness :
    ∃ st' l, upload_file envSF cfg0 st0 "tmp/f.gzip" "fid" 7 d0 = Except.ok (st', l)
      ∧ (MetaMap.find st'.metadata "fid").isSome = true
      ∧ (envSF.saveOutcome = FlushOutcome.dumpFail → st'.durable = DurableFile.torn)
      ∧ (envSF.saveOutcome = FlushOutcome.openFail → st'.durable = st0.durable) :=
  C8_flush_failure_absorbed envSF cfg0 st0 "tmp/f.gzip" "fid" 7 d0 [102, 1000, 1, 2, 3]
    (by decide) (by decide) (by decide)

/-! Claim C9. -/

/-- Claim C9 (counterexample): the progress callbacks are awaited inside the
operation's protected block whose handler re-raises, so a sink that raises at
the first milestone aborts the download, and the result differs from the run
with the sink omitted (which succeeds). -/
theorem C9_sink_failure_aborts_cex :
    download_and_decompress toyCodec envL cfg0 stR "fid" 7 (some (fun _ => false))
      = DlResult.err Err.callbackError
    ∧ download_and_decompress toyCodec envL cfg0 stR "fid" 7 none
      = DlResult.ok (FS.write stR.fs "tmp/file_storage/user_7/fid_f" [1, 2, 3])
          "tmp/file_storage/user_7/fid_f" "orig.txt" 10
    ∧ DlResult.err Err.callbackError
      ≠ DlResult.ok (FS.write stR.fs "tmp/file_storage/user_7/fid_f" [1, 2, 3])
          "tmp/file_storage/user_7/fid_f" "orig.txt" 10 := by
  refine ⟨by decide, by decide, by decide⟩

/-- Claim C9 (amended): a failure of the progress sink is not guarded: a sink
that raises at the 10% milestone propagates out of `download_and_decompress`
and aborts the operation (only the 60% call inside the channel-fetch attempt
is absorbed, by that attempt's own handler). -/
theorem C9_sink_failure_aborts (c : Codec) (env : Env) (cfg : Config) (st : MgrState)
    (fid : String) (uid : Int) (f : Nat → Bool) (m : FileMeta)
    (hm : MetaMap.find st.metadata fid = some m) (hu : m.user_id = uid)
    (hf : f 10 = false) :
    download_and_decompress c env cfg st fid uid (some f) = DlResult.err Err.callbackError := by
  simp [download_and_decompress, get_file_metadata, hm, hu, callCb, hf]

/-- Claim C9 (witness): the amended statement on the concrete record. -/
theorem C9_sink_failure_aborts_witness :
    download_and_decompress toyCodec envL cfg0 stR "fid" 7 (some (fun _ => false))
      = DlResult.err Err.callbackError :=
  C9_sink_failure_aborts toyCodec envL cfg0 stR "fid" 7 (fun _ => false) recR
    (by decide) (by decide) rfl

/-! Claim C4. -/

/-- Claim C4 (counterexample): with the channel attempt failing and a cloud
client that would succeed, the sequence the claim describes (spec §4.1)
selects the cloud location as primary, while the code records `local` — the
orchestrator never attempts the cloud upload. -/
theorem C4_no_cloud_cex :
    specToOption (upload_spec_primary envC4 cfg0 st0 "tmp/f.gzip" "fid" 7)
      = some ("cloud", "mega.nz/x")
    ∧ (exceptToOption (upload_file envC4 cfg0 st0 "tmp/f.gzip" "fid" 7 d0)).map
        (fun r => (MetaMap.find r.1.metadata "fid").map FileMeta.storage_type)
        = some (some "local")
    ∧ ("local" : String) ≠ "cloud" := by
  refine ⟨by decide, by decide, by decide⟩

/-- Claim C4 (amended): after the channel attempt, `upload_file` makes no
cloud attempt at all: its result is unchanged under any cloud-client outcome,
and the stored record's storage kind is always `telegram_channel` or `local`,
never a cloud location. -/
theorem C4_no_cloud_attempt (env : Env) (cfg : Config) (st : MgrState) (p fid : String)
    (uid : Int) (d : Descriptor) (cl : Option String) :
    upload_file (Env.setCloudUpload env cl) cfg st p fid uid d
      = upload_file env cfg st p fid uid d
    ∧ ∀ b : String,
        (exceptToOption (upload_file env cfg st p fid uid d)).map
          (fun r => (MetaMap.find r.1.metadata fid).map FileMeta.storage_type)
          = some (some b) →
        b = "telegram_channel" ∨ b = "local" := by
  constructor
  · cases env; rfl
  · intro b hb
    rcases h : FS.read st.fs p with _ | data <;>
      cases hc : env.copyOk <;>
        simp [upload_file, h, hc, exceptToOption, store_file_metadata,
              MetaMap.find_insert_self, uploadRecord] at hb
    rcases hch : chanResult env with _ | pr <;>
      simp [uploadLinks, hch] at hb <;> simp [hb]

/-- Claim C4 (witness): the amended statement on the concrete
channel-fails-cloud-succeeds environment. -/
theorem C4_no_cloud_attempt_witness :
    upload_file (Env.setCloudUpload envC4 (some "mega.nz/y")) cfg0 st0 "tmp/f.gzip" "fid" 7 d0
      = upload_file envC4 cfg0 st0 "tmp/f.gzip" "fid" 7 d0
    ∧ (("local" : String) = "telegram_channel" ∨ ("local" : String) = "local") :=
  ⟨(C4_no_cloud_attempt envC4 cfg0 st0 "tmp/f.gzip" "fid" 7 d0 (some "mega.nz/y")).1,
   (C4_no_cloud_attempt envC4 cfg0 st0 "tmp/f.gzip" "fid" 7 d0 (some "mega.nz/y")).2 "local"
     (by decide)⟩

/-! Claim C5. -/

/-- Claim C5: when the channel attempt fails (or the channel is
unconfigured) but the local copy succeeds, the upload still returns
successfully with the local path as the public link, the stored record's
`storage_type` is `local` with no channel message id, and a later download
never touches the channel: its result is independent of the channel-fetch
outcome and it is exactly the decompression of the local backup. -/
theorem C5_channel_failure_local_fallback (c : Codec) (env : Env) (cfg : Config)
    (st : MgrState) (p fid : String) (uid : Int) (d : Descriptor) (data : ByteSeq)
    (hch : env.channelReady = false ∨ env.channelUpload = none)
    (hc : env.copyOk = true) (hsrc : FS.read st.fs p = some data) :
    ∃ st',
      upload_file env cfg st p fid uid d = Except.ok (st', stored_path cfg uid fid p)
      ∧ (∃ r, MetaMap.find st'.metadata fid = some r ∧ r.storage_type = "local"
          ∧ r.telegram_message_id = none ∧ r.public_link = stored_path cfg uid fid p)
      ∧ (∀ f1 f2 cb,
          download_and_decompress c (Env.setChannelFetch env f1) cfg st' fid uid cb
            = download_and_decompress c (Env.setChannelFetch env f2) cfg st' fid uid cb)
      ∧ (download_and_decompress c env cfg st' fid uid none =
          match decompress_file c st'.fs (stored_path cfg uid fid p) none with
          | Except.ok (fs2, dp) => DlResult.ok fs2 dp d.original_name d.original_size
          | Except.error e => DlResult.err e) := by
  have hchan : chanResult env = none := by
    rcases hch with h | h
    · simp [chanResult, h]
    · cases hcr : env.channelReady <;> simp [chanResult, h]
  have hlinks : uploadLinks env cfg p fid uid = (stored_path cfg uid fid p, "local") := by
    simp [uploadLinks, hchan]
  refine ⟨store_file_metadata env
    ⟨FS.write st.fs (stored_path cfg uid fid p) data, st.metadata, st.durable⟩ fid
    (uploadRecord env cfg p fid uid d), ?_, ?_, ?_, ?_⟩
  · rw [upload_file_ok env cfg st p fid uid d data hc hsrc, hlinks]
  · exact ⟨uploadRecord env cfg p fid uid d,
      by simp [store_file_metadata, MetaMap.find_insert_self],
      by simp [uploadRecord, hlinks], by simp [uploadRecord, hchan],
      by simp [uploadRecord, hlinks]⟩
  · intro f1 f2 cb
    simp [download_and_decompress, get_file_metadata, store_file_metadata,
          MetaMap.find_insert_self, uploadRecord, hchan, Env.setChannelFetch]
  · simp only [download_and_decompress, get_file_metadata, store_file_metadata,
      MetaMap.find_insert_self, uploadRecord, hchan, hlinks, callCb, Option.map_none]
    simp only [callCb, if_pos rfl, if_true]
    rw [FS.read_write_self]
    cases hdec : decompress_file c
        (FS.write st.fs (stored_path cfg uid fid p) data) (stored_path cfg uid fid p) none with
    | error e => simp [finish_download, callCb, hdec]
    | ok v =>
      obtain ⟨fs2, dp⟩ := v
      simp [finish_download, callCb, hdec]

/-- Claim C5 (witness): the statement on the concrete no-channel environment
and one-file state. -/
theorem C5_channel_failure_local_fallback_witness :
    ∃ st',
      upload_file envL cfg0 st0 "tmp/f.gzip" "fid" 7 d0
        = Except.ok (st', stored_path cfg0 7 "fid" "tmp/f.gzip")
      ∧ (∃ r, MetaMap.find st'.metadata "fid" = some r ∧ r.storage_type = "local"
          ∧ r.telegram_message_id = none
          ∧ r.public_link = stored_path cfg0 7 "fid" "tmp/f.gzip")
      ∧ (∀ f1 f2 cb,
          download_and_decompress toyCodec (Env.setChannelFetch envL f1) cfg0 st' "fid" 7 cb
            = download_and_decompress toyCodec (Env.setChannelFetch envL f2) cfg0 st' "fid" 7 cb)
      ∧ (download_and_decompress toyCodec envL cfg0 st' "fid" 7 none =
          match decompress_file toyCodec st'.fs (stored_path cfg0 7 "fid" "tmp/f.gzip") none with
          | Except.ok (fs2, dp) => DlResult.ok fs2 dp d0.original_name d0.original_size
          | Except.error e => DlResult.err e) :=
  C5_channel_failure_local_fallback toyCodec envL cfg0 st0 "tmp/f.gzip" "fid" 7 d0
    [102, 1000, 1, 2, 3] (Or.inl (by decide)) (by decide) (by decide)

/-! Claim C6. -/

/-- Claim C6 (counterexample): when `os.remove` of the local backup raises,
the exception reaches the outer handler of `delete_file`, which returns
`False` and leaves the record in the index — delete does not return `True`
regardless of the local backup-file deletion outcome. -/
theorem C6_local_remove_failure_cex :
    delete_file envRF cfg0 stR "fid" 7 = (false, stR)
    ∧ (MetaMap.find stR.metadata "fid").isSome = true := by
  refine ⟨by decide, by decide⟩

/-- Claim C6 (amended): for an owned record, when the local backup removal
does not raise (it succeeds or the backup is already gone), `delete_file`
removes the record from the index and returns `True` regardless of the
channel-delete outcome, and a later download or delete of the same id by the
owner reports not-found/`False`; a different owner always gets `False` with
the state untouched.  When the local removal raises, `delete_file` returns
`False` and keeps the record. -/
theorem C6_delete_commits_index (env : Env) (cfg : Config) (st : MgrState) (fid : String)
    (uid : Int) (m : FileMeta) (c : Codec) (env2 : Env) (cb : Option (Nat → Bool))
    (hm : MetaMap.find st.metadata fid = some m) (hu : m.user_id = uid)
    (hrem : env.removeOk = true ∨ FS.read st.fs m.stored_file_path = none) :
    (∃ st', delete_file env cfg st fid uid = (true, st')
      ∧ MetaMap.find st'.metadata fid = none
      ∧ download_and_decompress c env2 cfg st' fid uid cb = DlResult.notFound
      ∧ delete_file env2 cfg st' fid uid = (false, st'))
    ∧ (∀ b, delete_file (Env.setChannelDeleteOk env b) cfg st fid uid
        = delete_file env cfg st fid uid)
    ∧ (∀ uid2, uid2 ≠ uid → delete_file env cfg st fid uid2 = (false, st)) := by
  have hg : get_file_metadata st fid uid = some m := by
    simp [get_file_metadata, hm, hu]
  refine ⟨?_, ?_, ?_⟩
  · have main : ∀ stm : MgrState, stm.metadata = st.metadata →
        MetaMap.find (index_delete_and_flush env stm fid).metadata fid = none
        ∧ download_and_decompress c env2 cfg (index_delete_and_flush env stm fid) fid uid cb
            = DlResult.notFound
        ∧ delete_file env2 cfg (index_delete_and_flush env stm fid) fid uid
            = (false, index_delete_and_flush env stm fid) := by
      intro stm hmm
      have hfind : MetaMap.find (index_delete_and_flush env stm fid).metadata fid = none := by
        simp [index_delete_and_flush, hmm, hm, MetaMap.find_eraseKey_self]
      have hgone : get_file_metadata (index_delete_and_flush env stm fid) fid uid = none := by
        simp [get_file_metadata, hfind]
      exact ⟨hfind, by simp [download_and_decompress, hgone], by simp [delete_file, hgone]⟩
    rcases hfile : FS.read st.fs m.stored_file_path with _ | d2
    · refine ⟨index_delete_and_flush env st fid, ?_, main st rfl⟩
      simp [delete_file, hg, hfile]
    · rcases hrem with hrok | habs
      · refine ⟨index_delete_and_flush env
          ⟨FS.erase st.fs m.stored_file_path, st.metadata, st.durable⟩ fid, ?_,
          main ⟨FS.erase st.fs m.stored_file_path, st.metadata, st.durable⟩ rfl⟩
        simp [delete_file, hg, hfile, hrok]
      · rw [habs] at hfile; cases hfile
  · intro b; cases env; rfl
  · intro uid2 h2
    have hne : m.user_id ≠ uid2 := by rw [hu]; exact fun hh => h2 hh.symm
    simp [delete_file, get_file_metadata, hm, hne]

/-- Claim C6 (witness): the amended statement on the concrete record and
environment where every step succeeds. -/
theorem C6_delete_commits_index_witness :
    (∃ st', delete_file envL cfg0 stR "fid" 7 = (true, st')
      ∧ MetaMap.find st'.metadata "fid" = none
      ∧ download_and_decompress toyCodec envL cfg0 st' "fid" 7 none = DlResult.notFound
      ∧ delete_file envL cfg0 st' "fid" 7 = (false, st'))
    ∧ (∀ b, delete_file (Env.setChannelDeleteOk envL b) cfg0 stR "fid" 7
        = delete_file envL cfg0 stR "fid" 7)
    ∧ (∀ uid2, uid2 ≠ 7 → delete_file envL cfg0 stR "fid" uid2 = (false, stR)) :=
  C6_delete_commits_index envL cfg0 stR "fid" 7 recR toyCodec envL none
    (by decide) (by decide) (Or.inl (by decide))

/-! Claim C7. -/

/-- Claim C7 (counterexample): the flush in `_save_metadata` opens the durable
file for writing in place and streams the dump into it; a crash between the
truncating open and the completed dump leaves a torn file visible at the
durable path — there is no write-to-fresh-location-then-rename step. -/
theorem C7_inplace_flush_tears_cex :
    save_metadata_crash FlushCrash.mid (DurableFile.full stR.metadata) [] = DurableFile.torn
    ∧ DurableFile.torn ≠ DurableFile.full stR.metadata
    ∧ DurableFile.torn ≠ DurableFile.full [] := by
  refine ⟨rfl, by decide, by decide⟩

/-- Claim C7 (amended): every mutating index operation (the store at the end
of an upload, the removal inside a delete) is immediately followed by a
full-structure flush of the index to the durable file; but the flush rewrites
the durable file in place rather than writing a fresh file and renaming it
over the old one, so a crash mid-flush can leave a torn durable file
visible. -/
theorem C7_flush_after_each_mutation :
    (∀ env st fid r, env.saveOutcome = FlushOutcome.ok →
      (store_file_metadata env st fid r).durable
        = DurableFile.full (store_file_metadata env st fid r).metadata)
    ∧ (∀ env st fid, env.saveOutcome = FlushOutcome.ok → (MetaMap.find st.metadata fid).isSome = true →
      (index_delete_and_flush env st fid).durable
        = DurableFile.full (index_delete_and_flush env st fid).metadata)
    ∧ save_metadata_crash FlushCrash.mid (DurableFile.full stR.metadata)
        (MetaMap.eraseKey stR.metadata "fid") = DurableFile.torn := by
  refine ⟨?_, ?_, rfl⟩
  · intro env st fid r hs
    simp [store_file_metadata, save_metadata, hs]
  · intro env st fid hs hf
    simp [index_delete_and_flush, save_metadata, hs, hf]

/-- Claim C7 (witness): the amended statement at a concrete store and a
concrete delete. -/
theorem C7_flush_after_each_mutation_witness :
    (store_file_metadata envL stR "fid2" recR).durable
      = DurableFile.full (store_file_metadata envL stR "fid2" recR).metadata
    ∧ (index_delete_and_flush envL stR "fid").durable
      = DurableFile.full (index_delete_and_flush envL stR "fid").metadata :=
  ⟨C7_flush_after_each_mutation.1 envL stR "fid2" recR (by decide),
   C7_flush_after_each_mutation.2.1 envL stR "fid" (by decide) (by decide)⟩

end UploadBot
